import Mathlib

/-!
Shallow embedding of the event decoding and dispatch engine of
seq/aseqdump/aseqdump.c (alsa-utils).  The pure decoding/formatting
functions `dump_event`, `dump_ump_midi1_event`, `dump_ump_midi2_event` and
`dump_ump_event` are translated as Lean functions from an event record (or
the raw 32-bit UMP words) to the text printed for that event.  The
non-blocking drain loop of `main` is modelled as a step function over the
sequence of results returned by the pull operation.  printf conversions are
embedded as explicit string builders (`%d` as `decimal`/`decimalInt`, `%x`
as `hexLower`, field widths as padding).
-/

set_option maxHeartbeats 1000000

namespace Aseqdump

/-! printf-style string building blocks. -/

/-- One decimal digit character (used by the embedding of printf %d). -/
def digitChar10 (n : Nat) : Char :=
  if n = 0 then '0' else if n = 1 then '1' else if n = 2 then '2' else if n = 3 then '3'
  else if n = 4 then '4' else if n = 5 then '5' else if n = 6 then '6' else if n = 7 then '7'
  else if n = 8 then '8' else '9'

/-- Decimal digits of `m`, least significant first.  The first argument is
fuel making the recursion structural; the callers pass `m` itself, which is
always enough fuel since a number has at most as many digits as its value. -/
def digitsRevAux : Nat → Nat → List Char
  | _, 0 => []
  | 0, _ + 1 => []
  | fuel + 1, m + 1 => digitChar10 ((m + 1) % 10) :: digitsRevAux fuel ((m + 1) / 10)

/-- printf "%d" of a non-negative value. -/
def decimal (n : Nat) : String :=
  if n = 0 then "0" else ⟨(digitsRevAux n n).reverse⟩

/-- printf "%d" of a signed int. -/
def decimalInt (i : Int) : String :=
  if i < 0 then "-" ++ decimal i.natAbs else decimal i.toNat

/-- One lowercase hexadecimal digit character. -/
def hexDigitL (n : Nat) : Char :=
  if n = 10 then 'a' else if n = 11 then 'b' else if n = 12 then 'c'
  else if n = 13 then 'd' else if n = 14 then 'e' else if n = 15 then 'f'
  else digitChar10 n

/-- One uppercase hexadecimal digit character. -/
def hexDigitU (n : Nat) : Char :=
  if n = 10 then 'A' else if n = 11 then 'B' else if n = 12 then 'C'
  else if n = 13 then 'D' else if n = 14 then 'E' else if n = 15 then 'F'
  else digitChar10 n

/-- Lowercase hex digits of `m`, least significant first, with fuel as in
`digitsRevAux`. -/
def hexDigitsRevAux : Nat → Nat → List Char
  | _, 0 => []
  | 0, _ + 1 => []
  | fuel + 1, m + 1 => hexDigitL ((m + 1) % 16) :: hexDigitsRevAux fuel ((m + 1) / 16)

/-- printf "%x" of an unsigned value. -/
def hexLower (n : Nat) : String :=
  if n = 0 then "0" else ⟨(hexDigitsRevAux n n).reverse⟩

/-- Left padding with spaces, as in printf "%3d". -/
def spacePad (w : Nat) (s : String) : String :=
  ⟨List.replicate (w - s.data.length) ' ' ++ s.data⟩

/-- Right padding with spaces, as in printf "%-3d". -/
def rightPad (w : Nat) (s : String) : String :=
  ⟨s.data ++ List.replicate (w - s.data.length) ' '⟩

/-- Left padding with zeros, as in printf "%08x". -/
def zeroPad (w : Nat) (s : String) : String :=
  ⟨List.replicate (w - s.data.length) '0' ++ s.data⟩

/-- The unsigned 32-bit reinterpretation of a signed int, as applied by
printf hex conversions to a negative int argument. -/
def toU32 (i : Int) : Nat := (i % 4294967296).toNat

/-- printf "%#010x": alternate-form hex, zero padded to total width 10.  The
alternate form prints no 0x for the value 0. -/
def altHex010 (n : Nat) : String :=
  if n = 0 then zeroPad 10 "0" else "0x" ++ zeroPad 8 (hexLower n)

/-- printf "%02X" of one byte (always exactly two uppercase hex digits for
values below 256). -/
def hex02U (b : Fin 256) : String :=
  ⟨[hexDigitU (b.val / 16), hexDigitU (b.val % 16)]⟩

/-! The legacy (snd_seq_event_t) data model.  The C record is a type tag, a
source address and a union of per-kind payloads; the union is embedded as a
product, mirroring that `dump_event` only reads the arm selected by the
type tag.  The byte fields of the C structs (channels, notes, velocities,
queue and client numbers) are embedded as `Nat`, the signed
`data.control.value` as `Int`, and the system-exclusive byte blob
(`data.ext.ptr`/`len`) as a list of bytes. -/

structure snd_seq_addr_t where
  client : Nat
  port : Nat
deriving DecidableEq

structure seq_ev_note where
  channel : Nat
  note : Nat
  velocity : Nat
deriving DecidableEq

structure seq_ev_ctrl where
  channel : Nat
  param : Nat
  value : Int
deriving DecidableEq

structure seq_ev_queue where
  queue : Nat
deriving DecidableEq

structure seq_ev_connect where
  sender : snd_seq_addr_t
  dest : snd_seq_addr_t
deriving DecidableEq

structure seq_ev_data where
  note : seq_ev_note
  control : seq_ev_ctrl
  queue : seq_ev_queue
  addr : snd_seq_addr_t
  connect : seq_ev_connect
  ext : List (Fin 256)
deriving DecidableEq

structure snd_seq_event_t where
  type : Nat
  source : snd_seq_addr_t
  data : seq_ev_data
deriving DecidableEq

/-! Event type tags, from alsa/seq_event.h. -/

abbrev SND_SEQ_EVENT_NOTEON : Nat := 6
abbrev SND_SEQ_EVENT_NOTEOFF : Nat := 7
abbrev SND_SEQ_EVENT_KEYPRESS : Nat := 8
abbrev SND_SEQ_EVENT_CONTROLLER : Nat := 10
abbrev SND_SEQ_EVENT_PGMCHANGE : Nat := 11
abbrev SND_SEQ_EVENT_CHANPRESS : Nat := 12
abbrev SND_SEQ_EVENT_PITCHBEND : Nat := 13
abbrev SND_SEQ_EVENT_CONTROL14 : Nat := 14
abbrev SND_SEQ_EVENT_NONREGPARAM : Nat := 15
abbrev SND_SEQ_EVENT_REGPARAM : Nat := 16
abbrev SND_SEQ_EVENT_SONGPOS : Nat := 20
abbrev SND_SEQ_EVENT_SONGSEL : Nat := 21
abbrev SND_SEQ_EVENT_QFRAME : Nat := 22
abbrev SND_SEQ_EVENT_TIMESIGN : Nat := 23
abbrev SND_SEQ_EVENT_KEYSIGN : Nat := 24
abbrev SND_SEQ_EVENT_START : Nat := 30
abbrev SND_SEQ_EVENT_CONTINUE : Nat := 31
abbrev SND_SEQ_EVENT_STOP : Nat := 32
abbrev SND_SEQ_EVENT_SETPOS_TICK : Nat := 33
abbrev SND_SEQ_EVENT_SETPOS_TIME : Nat := 34
abbrev SND_SEQ_EVENT_TEMPO : Nat := 35
abbrev SND_SEQ_EVENT_CLOCK : Nat := 36
abbrev SND_SEQ_EVENT_TICK : Nat := 37
abbrev SND_SEQ_EVENT_QUEUE_SKEW : Nat := 38
abbrev SND_SEQ_EVENT_TUNE_REQUEST : Nat := 40
abbrev SND_SEQ_EVENT_RESET : Nat := 41
abbrev SND_SEQ_EVENT_SENSING : Nat := 42
abbrev SND_SEQ_EVENT_CLIENT_START : Nat := 60
abbrev SND_SEQ_EVENT_CLIENT_EXIT : Nat := 61
abbrev SND_SEQ_EVENT_CLIENT_CHANGE : Nat := 62
abbrev SND_SEQ_EVENT_PORT_START : Nat := 63
abbrev SND_SEQ_EVENT_PORT_EXIT : Nat := 64
abbrev SND_SEQ_EVENT_PORT_CHANGE : Nat := 65
abbrev SND_SEQ_EVENT_PORT_SUBSCRIBED : Nat := 66
abbrev SND_SEQ_EVENT_PORT_UNSUBSCRIBED : Nat := 67
abbrev SND_SEQ_EVENT_SYSEX : Nat := 130

abbrev SND_SEQ_CLIENT_SYSTEM : Nat := 0
abbrev SND_SEQ_PORT_SYSTEM_TIMER : Nat := 0

/-- The type tags handled by a case of the switch in `dump_event`; every
other tag reaches the default branch. -/
def legacyKnownTypes : List Nat :=
  [SND_SEQ_EVENT_NOTEON, SND_SEQ_EVENT_NOTEOFF, SND_SEQ_EVENT_KEYPRESS,
   SND_SEQ_EVENT_CONTROLLER, SND_SEQ_EVENT_PGMCHANGE, SND_SEQ_EVENT_CHANPRESS,
   SND_SEQ_EVENT_PITCHBEND, SND_SEQ_EVENT_CONTROL14, SND_SEQ_EVENT_NONREGPARAM,
   SND_SEQ_EVENT_REGPARAM, SND_SEQ_EVENT_SONGPOS, SND_SEQ_EVENT_SONGSEL,
   SND_SEQ_EVENT_QFRAME, SND_SEQ_EVENT_TIMESIGN, SND_SEQ_EVENT_KEYSIGN,
   SND_SEQ_EVENT_START, SND_SEQ_EVENT_CONTINUE, SND_SEQ_EVENT_STOP,
   SND_SEQ_EVENT_SETPOS_TICK, SND_SEQ_EVENT_SETPOS_TIME, SND_SEQ_EVENT_TEMPO,
   SND_SEQ_EVENT_CLOCK, SND_SEQ_EVENT_TICK, SND_SEQ_EVENT_QUEUE_SKEW,
   SND_SEQ_EVENT_TUNE_REQUEST, SND_SEQ_EVENT_RESET, SND_SEQ_EVENT_SENSING,
   SND_SEQ_EVENT_CLIENT_START, SND_SEQ_EVENT_CLIENT_EXIT,
   SND_SEQ_EVENT_CLIENT_CHANGE, SND_SEQ_EVENT_PORT_START,
   SND_SEQ_EVENT_PORT_EXIT, SND_SEQ_EVENT_PORT_CHANGE,
   SND_SEQ_EVENT_PORT_SUBSCRIBED, SND_SEQ_EVENT_PORT_UNSUBSCRIBED,
   SND_SEQ_EVENT_SYSEX]

/-- printf "%3d:%-3d " of the event source address, the prefix of every
output line. -/
def addrField (a : snd_seq_addr_t) : String :=
  spacePad 3 (decimal a.client) ++ ":" ++ rightPad 3 (decimal a.port) ++ " "

/-- The loop of the SND_SEQ_EVENT_SYSEX case: printf " %02X" per payload
byte, in order. -/
def sysex_bytes : List (Fin 256) → String
  | [] => ""
  | b :: rest => " " ++ hex02U b ++ sysex_bytes rest

/-- Body of `dump_event` after the address prefix: the switch on
`ev->type`.  The C `if (ev->data.note.velocity)` in the NOTEON case is
embedded with the zero branch first. -/
def dump_event_body (ev : snd_seq_event_t) : String :=
  if ev.type = SND_SEQ_EVENT_NOTEON then
    if ev.data.note.velocity = 0 then
      "Note off               " ++ spacePad 2 (decimal ev.data.note.channel) ++
        ", note " ++ decimal ev.data.note.note ++ "\n"
    else
      "Note on                " ++ spacePad 2 (decimal ev.data.note.channel) ++
        ", note " ++ decimal ev.data.note.note ++
        ", velocity " ++ decimal ev.data.note.velocity ++ "\n"
  else if ev.type = SND_SEQ_EVENT_NOTEOFF then
    "Note off               " ++ spacePad 2 (decimal ev.data.note.channel) ++
      ", note " ++ decimal ev.data.note.note ++
      ", velocity " ++ decimal ev.data.note.velocity ++ "\n"
  else if ev.type = SND_SEQ_EVENT_KEYPRESS then
    "Polyphonic aftertouch  " ++ spacePad 2 (decimal ev.data.note.channel) ++
      ", note " ++ decimal ev.data.note.note ++
      ", value " ++ decimal ev.data.note.velocity ++ "\n"
  else if ev.type = SND_SEQ_EVENT_CONTROLLER then
    "Control change         " ++ spacePad 2 (decimal ev.data.control.channel) ++
      ", controller " ++ decimal ev.data.control.param ++
      ", value " ++ decimalInt ev.data.control.value ++ "\n"
  else if ev.type = SND_SEQ_EVENT_PGMCHANGE then
    "Program change         " ++ spacePad 2 (decimal ev.data.control.channel) ++
      ", program " ++ decimalInt ev.data.control.value ++ "\n"
  else if ev.type = SND_SEQ_EVENT_CHANPRESS then
    "Channel aftertouch     " ++ spacePad 2 (decimal ev.data.control.channel) ++
      ", value " ++ decimalInt ev.data.control.value ++ "\n"
  else if ev.type = SND_SEQ_EVENT_PITCHBEND then
    "Pitch bend             " ++ spacePad 2 (decimal ev.data.control.channel) ++
      ", value " ++ decimalInt ev.data.control.value ++ "\n"
  else if ev.type = SND_SEQ_EVENT_CONTROL14 then
    "Control change         " ++ spacePad 2 (decimal ev.data.control.channel) ++
      ", controller " ++ decimal ev.data.control.param ++
      ", value " ++ spacePad 5 (decimalInt ev.data.control.value) ++ "\n"
  else if ev.type = SND_SEQ_EVENT_NONREGPARAM then
    "Non-reg. parameter     " ++ spacePad 2 (decimal ev.data.control.channel) ++
      ", parameter " ++ decimal ev.data.control.param ++
      ", value " ++ decimalInt ev.data.control.value ++ "\n"
  else if ev.type = SND_SEQ_EVENT_REGPARAM then
    "Reg. parameter         " ++ spacePad 2 (decimal ev.data.control.channel) ++
      ", parameter " ++ decimal ev.data.control.param ++
      ", value " ++ decimalInt ev.data.control.value ++ "\n"
  else if ev.type = SND_SEQ_EVENT_SONGPOS then
    "Song position pointer      value " ++ decimalInt ev.data.control.value ++ "\n"
  else if ev.type = SND_SEQ_EVENT_SONGSEL then
    "Song select                value " ++ decimalInt ev.data.control.value ++ "\n"
  else if ev.type = SND_SEQ_EVENT_QFRAME then
    "MTC quarter frame          " ++ zeroPad 2 (hexLower (toU32 ev.data.control.value)) ++ "h\n"
  else if ev.type = SND_SEQ_EVENT_TIMESIGN then
    "SMF time signature         (" ++ altHex010 (toU32 ev.data.control.value) ++ ")\n"
  else if ev.type = SND_SEQ_EVENT_KEYSIGN then
    "SMF key signature          (" ++ altHex010 (toU32 ev.data.control.value) ++ ")\n"
  else if ev.type = SND_SEQ_EVENT_START then
    if ev.source.client = SND_SEQ_CLIENT_SYSTEM ∧ ev.source.port = SND_SEQ_PORT_SYSTEM_TIMER then
      "Queue start                queue " ++ decimal ev.data.queue.queue ++ "\n"
    else "Start\n"
  else if ev.type = SND_SEQ_EVENT_CONTINUE then
    if ev.source.client = SND_SEQ_CLIENT_SYSTEM ∧ ev.source.port = SND_SEQ_PORT_SYSTEM_TIMER then
      "Queue continue             queue " ++ decimal ev.data.queue.queue ++ "\n"
    else "Continue\n"
  else if ev.type = SND_SEQ_EVENT_STOP then
    if ev.source.client = SND_SEQ_CLIENT_SYSTEM ∧ ev.source.port = SND_SEQ_PORT_SYSTEM_TIMER then
      "Queue stop                 queue " ++ decimal ev.data.queue.queue ++ "\n"
    else "Stop\n"
  else if ev.type = SND_SEQ_EVENT_SETPOS_TICK then
    "Set tick queue pos.        queue " ++ decimal ev.data.queue.queue ++ "\n"
  else if ev.type = SND_SEQ_EVENT_SETPOS_TIME then
    "Set rt queue pos.          queue " ++ decimal ev.data.queue.queue ++ "\n"
  else if ev.type = SND_SEQ_EVENT_TEMPO then
    "Set queue tempo            queue " ++ decimal ev.data.queue.queue ++ "\n"
  else if ev.type = SND_SEQ_EVENT_CLOCK then "Clock\n"
  else if ev.type = SND_SEQ_EVENT_TICK then "Tick\n"
  else if ev.type = SND_SEQ_EVENT_QUEUE_SKEW then
    "Queue timer skew           queue " ++ decimal ev.data.queue.queue ++ "\n"
  else if ev.type = SND_SEQ_EVENT_TUNE_REQUEST then "Tune request\n"
  else if ev.type = SND_SEQ_EVENT_RESET then "Reset\n"
  else if ev.type = SND_SEQ_EVENT_SENSING then "Active Sensing\n"
  else if ev.type = SND_SEQ_EVENT_CLIENT_START then
    "Client start               client " ++ decimal ev.data.addr.client ++ "\n"
  else if ev.type = SND_SEQ_EVENT_CLIENT_EXIT then
    "Client exit                client " ++ decimal ev.data.addr.client ++ "\n"
  else if ev.type = SND_SEQ_EVENT_CLIENT_CHANGE then
    "Client changed             client " ++ decimal ev.data.addr.client ++ "\n"
  else if ev.type = SND_SEQ_EVENT_PORT_START then
    "Port start                 " ++ decimal ev.data.addr.client ++ ":" ++
      decimal ev.data.addr.port ++ "\n"
  else if ev.type = SND_SEQ_EVENT_PORT_EXIT then
    "Port exit                  " ++ decimal ev.data.addr.client ++ ":" ++
      decimal ev.data.addr.port ++ "\n"
  else if ev.type = SND_SEQ_EVENT_PORT_CHANGE then
    "Port changed               " ++ decimal ev.data.addr.client ++ ":" ++
      decimal ev.data.addr.port ++ "\n"
  else if ev.type = SND_SEQ_EVENT_PORT_SUBSCRIBED then
    "Port subscribed            " ++ decimal ev.data.connect.sender.client ++ ":" ++
      decimal ev.data.connect.sender.port ++ " -> " ++
      decimal ev.data.connect.dest.client ++ ":" ++
      decimal ev.data.connect.dest.port ++ "\n"
  else if ev.type = SND_SEQ_EVENT_PORT_UNSUBSCRIBED then
    "Port unsubscribed          " ++ decimal ev.data.connect.sender.client ++ ":" ++
      decimal ev.data.connect.sender.port ++ " -> " ++
      decimal ev.data.connect.dest.client ++ ":" ++
      decimal ev.data.connect.dest.port ++ "\n"
  else if ev.type = SND_SEQ_EVENT_SYSEX then
    "System exclusive          " ++ sysex_bytes ev.data.ext ++ "\n"
  else
    "Event type " ++ decimal ev.type ++ "\n"

/-- The legacy event decoder/formatter `dump_event`: address prefix, then
the per-type line. -/
def dump_event (ev : snd_seq_event_t) : String :=
  addrField ev.source ++ dump_event_body ev

/-! The UMP packet model.  A UMP channel-voice packet is one 32-bit word
(MIDI 1.0) or two 32-bit words (MIDI 2.0); the C code reads it through the
bitfield structs of alsa/ump_msg.h.  The bitfields are embedded as
accessor functions on the raw words, which also captures the union
punning the C code relies on (for example reading a note-on through the
`note_off` arm, or a pitchbend through the `channel_pressure` arm: both
arms denote the same bits of the packet). -/

/-- Message type, bits 31-28 of the first word (snd_ump_msg_type). -/
def ump_type (w0 : Nat) : Nat := w0 / 2 ^ 28 % 16

/-- Group, bits 27-24 of the first word (hdr.group). -/
def ump_group (w0 : Nat) : Nat := w0 / 2 ^ 24 % 16

/-- Status nibble, bits 23-20 of the first word (hdr.status). -/
def ump_status (w0 : Nat) : Nat := w0 / 2 ^ 20 % 16

/-- Channel, bits 19-16 of the first word (hdr.channel). -/
def ump_channel (w0 : Nat) : Nat := w0 / 2 ^ 16 % 16

/-- Third byte of a word, bits 15-8 (note/index/program/data byte 1). -/
def ump_byte2 (w0 : Nat) : Nat := w0 / 2 ^ 8 % 256

/-- Fourth byte of a word, bits 7-0 (velocity/data/attribute byte 2). -/
def ump_byte3 (w0 : Nat) : Nat := w0 % 256

/-- High 16 bits of the second word (MIDI 2.0 note velocity). -/
def ump_hi16 (w1 : Nat) : Nat := w1 / 2 ^ 16 % 65536

/-- Low 16 bits of the second word (MIDI 2.0 note attribute data). -/
def ump_lo16 (w1 : Nat) : Nat := w1 % 65536

/-! Status codes of UMP channel-voice messages, from alsa/ump_msg.h. -/

abbrev SND_UMP_MSG_PER_NOTE_RCC : Nat := 0x0
abbrev SND_UMP_MSG_PER_NOTE_ACC : Nat := 0x1
abbrev SND_UMP_MSG_RPN : Nat := 0x2
abbrev SND_UMP_MSG_NRPN : Nat := 0x3
abbrev SND_UMP_MSG_RELATIVE_RPN : Nat := 0x4
abbrev SND_UMP_MSG_RELATIVE_NRPN : Nat := 0x5
abbrev SND_UMP_MSG_PER_NOTE_PITCHBEND : Nat := 0x6
abbrev SND_UMP_MSG_NOTE_OFF : Nat := 0x8
abbrev SND_UMP_MSG_NOTE_ON : Nat := 0x9
abbrev SND_UMP_MSG_POLY_PRESSURE : Nat := 0xa
abbrev SND_UMP_MSG_CONTROL_CHANGE : Nat := 0xb
abbrev SND_UMP_MSG_PROGRAM_CHANGE : Nat := 0xc
abbrev SND_UMP_MSG_CHANNEL_PRESSURE : Nat := 0xd
abbrev SND_UMP_MSG_PITCHBEND : Nat := 0xe
abbrev SND_UMP_MSG_PER_NOTE_MGMT : Nat := 0xf

abbrev SND_UMP_MSG_TYPE_MIDI1_CHANNEL_VOICE : Nat := 0x2
abbrev SND_UMP_MSG_TYPE_MIDI2_CHANNEL_VOICE : Nat := 0x4

/-- The SND_UMP_MSG_CHANNEL_PRESSURE case of `dump_ump_midi1_event`; in
the C source this text is also produced for SND_UMP_MSG_PROGRAM_CHANGE,
whose case has no break and falls through into it
(m->channel_pressure.data are bits 15-8 of the word). -/
def midi1_channel_pressure_case (w0 : Nat) : String :=
  "Channel pressure       " ++ spacePad 2 (decimal (ump_channel w0)) ++
    ", value 0x" ++ hexLower (ump_byte2 w0)

/-- `dump_ump_midi1_event`: the MIDI 1.0 channel-voice formatter, switch on
the status nibble of the single 32-bit word. -/
def dump_ump_midi1_event (w0 : Nat) : String :=
  "Group " ++ spacePad 2 (decimal (ump_group w0)) ++ ", " ++
  (if ump_status w0 = SND_UMP_MSG_NOTE_OFF then
    "Note off               " ++ spacePad 2 (decimal (ump_channel w0)) ++
      ", note " ++ decimal (ump_byte2 w0) ++
      ", velocity 0x" ++ hexLower (ump_byte3 w0)
  else if ump_status w0 = SND_UMP_MSG_NOTE_ON then
    "Note on                " ++ spacePad 2 (decimal (ump_channel w0)) ++
      ", note " ++ decimal (ump_byte2 w0) ++
      ", velocity 0x" ++ hexLower (ump_byte3 w0)
  else if ump_status w0 = SND_UMP_MSG_POLY_PRESSURE then
    "Poly pressure          " ++ spacePad 2 (decimal (ump_channel w0)) ++
      ", note " ++ decimal (ump_byte2 w0) ++
      ", value 0x" ++ hexLower (ump_byte3 w0)
  else if ump_status w0 = SND_UMP_MSG_CONTROL_CHANGE then
    "Control change         " ++ spacePad 2 (decimal (ump_channel w0)) ++
      ", controller " ++ decimal (ump_byte2 w0) ++
      ", value 0x" ++ hexLower (ump_byte3 w0)
  else if ump_status w0 = SND_UMP_MSG_PROGRAM_CHANGE then
    "Program change         " ++ spacePad 2 (decimal (ump_channel w0)) ++
      ", program " ++ decimal (ump_byte2 w0) ++
      midi1_channel_pressure_case w0
  else if ump_status w0 = SND_UMP_MSG_CHANNEL_PRESSURE then
    midi1_channel_pressure_case w0
  else if ump_status w0 = SND_UMP_MSG_PITCHBEND then
    "Pitchbend              " ++ spacePad 2 (decimal (ump_channel w0)) ++
      ", value 0x" ++ hexLower ((ump_byte3 w0 <<< 7) ||| ump_byte2 w0)
  else
    "UMP MIDI1 event: status = " ++ decimal (ump_status w0) ++
      ", channel = " ++ decimal (ump_channel w0) ++
      ", 0x" ++ zeroPad 8 (hexLower w0)) ++ "\n"

/-- The text of the SND_UMP_MSG_CHANNEL_PRESSURE case of
`dump_ump_midi2_event`; in the C source the SND_UMP_MSG_PITCHBEND case
prints exactly the same text (same label and same
m->channel_pressure.data field, the whole second word). -/
def midi2_channel_pressure_case (w0 w1 : Nat) : String :=
  "Channel pressure       " ++ spacePad 2 (decimal (ump_channel w0)) ++
    ", value 0x" ++ hexLower w1

/-- `dump_ump_midi2_event`: the MIDI 2.0 channel-voice formatter, switch on
the status nibble of the first of the two 32-bit words. -/
def dump_ump_midi2_event (w0 w1 : Nat) : String :=
  "Group " ++ spacePad 2 (decimal (ump_group w0)) ++ ", " ++
  (if ump_status w0 = SND_UMP_MSG_PER_NOTE_RCC then
    "Per-note RCC           " ++ spacePad 2 (decimal (ump_channel w0)) ++
      ", note " ++ decimal (ump_byte2 w0) ++
      ", index " ++ decimal (ump_byte3 w0) ++
      ", value 0x" ++ hexLower w1
  else if ump_status w0 = SND_UMP_MSG_PER_NOTE_ACC then
    "Per-note ACC           " ++ spacePad 2 (decimal (ump_channel w0)) ++
      ", note " ++ decimal (ump_byte2 w0) ++
      ", index " ++ decimal (ump_byte3 w0) ++
      ", value 0x" ++ hexLower w1
  else if ump_status w0 = SND_UMP_MSG_RPN then
    "RPN                    " ++ spacePad 2 (decimal (ump_channel w0)) ++
      ", bank " ++ decimal (ump_byte2 w0) ++ ":" ++ decimal (ump_byte3 w0) ++
      ", value 0x" ++ hexLower w1
  else if ump_status w0 = SND_UMP_MSG_NRPN then
    "NRPN                   " ++ spacePad 2 (decimal (ump_channel w0)) ++
      ", bank " ++ decimal (ump_byte2 w0) ++ ":" ++ decimal (ump_byte3 w0) ++
      ", value 0x" ++ hexLower w1
  else if ump_status w0 = SND_UMP_MSG_RELATIVE_RPN then
    "relative RPN           " ++ spacePad 2 (decimal (ump_channel w0)) ++
      ", bank " ++ decimal (ump_byte2 w0) ++ ":" ++ decimal (ump_byte3 w0) ++
      ", value 0x" ++ hexLower w1
  else if ump_status w0 = SND_UMP_MSG_RELATIVE_NRPN then
    "relative NRP           " ++ spacePad 2 (decimal (ump_channel w0)) ++
      ", bank " ++ decimal (ump_byte2 w0) ++ ":" ++ decimal (ump_byte3 w0) ++
      ", value 0x" ++ hexLower w1
  else if ump_status w0 = SND_UMP_MSG_PER_NOTE_PITCHBEND then
    "Per-note pitchbend     " ++ spacePad 2 (decimal (ump_channel w0)) ++
      ", note " ++ decimal (ump_byte2 w0) ++
      ", value 0x" ++ hexLower w1
  else if ump_status w0 = SND_UMP_MSG_NOTE_OFF then
    "Note off               " ++ spacePad 2 (decimal (ump_channel w0)) ++
      ", note " ++ decimal (ump_byte2 w0) ++
      ", velocity 0x" ++ hexLower (ump_hi16 w1) ++
      ", attr type = " ++ decimal (ump_byte3 w0) ++
      ", data = 0x" ++ hexLower (ump_lo16 w1)
  else if ump_status w0 = SND_UMP_MSG_NOTE_ON then
    "Note on                " ++ spacePad 2 (decimal (ump_channel w0)) ++
      ", note " ++ decimal (ump_byte2 w0) ++
      ", velocity 0x" ++ hexLower (ump_hi16 w1) ++
      ", attr type = " ++ decimal (ump_byte3 w0) ++
      ", data = 0x" ++ hexLower (ump_lo16 w1)
  else if ump_status w0 = SND_UMP_MSG_POLY_PRESSURE then
    "Poly pressure          " ++ spacePad 2 (decimal (ump_channel w0)) ++
      ", note " ++ decimal (ump_byte2 w0) ++
      ", value 0x" ++ hexLower w1
  else if ump_status w0 = SND_UMP_MSG_CONTROL_CHANGE then
    "Control change         " ++ spacePad 2 (decimal (ump_channel w0)) ++
      ", controller " ++ decimal (ump_byte2 w0) ++
      ", value 0x" ++ hexLower w1
  else if ump_status w0 = SND_UMP_MSG_PROGRAM_CHANGE then
    -- program is bits 31-24 of the second word; bank_valid is bit 0 of
    -- the first word, bank msb/lsb are bits 15-8 and 7-0 of the second
    "Program change         " ++ spacePad 2 (decimal (ump_channel w0)) ++
      ", program " ++ decimal (w1 / 2 ^ 24 % 256) ++
      (if w0 % 2 ≠ 0 then
        ", Bank select " ++ decimal (w1 / 2 ^ 8 % 256) ++ ":" ++ decimal (w1 % 256)
      else "")
  else if ump_status w0 = SND_UMP_MSG_CHANNEL_PRESSURE then
    midi2_channel_pressure_case w0 w1
  else if ump_status w0 = SND_UMP_MSG_PITCHBEND then
    midi2_channel_pressure_case w0 w1
  else if ump_status w0 = SND_UMP_MSG_PER_NOTE_MGMT then
    -- per_note_mgmt.flags is the low byte (bits 7-0) of the first word
    "Per-note management    " ++ spacePad 2 (decimal (ump_channel w0)) ++
      ", value 0x" ++ hexLower (ump_byte3 w0)
  else
    "UMP MIDI2 event: status = " ++ decimal (ump_status w0) ++
      ", channel = " ++ hexLower (ump_status w0) ++
      ", 0x" ++ zeroPad 8 (hexLower w0)) ++ "\n"

/-- `dump_ump_event`, the protocol dispatcher for one raw unit in UMP mode:
a unit that is not in UMP form falls back to the legacy decoder; a UMP unit
gets the address prefix and is routed on its message type, with a generic
hex fallback for non-channel-voice types. -/
def dump_ump_event (isUmp : Bool) (src : snd_seq_addr_t) (legacyView : snd_seq_event_t)
    (w0 w1 : Nat) : String :=
  if !isUmp then dump_event legacyView
  else
    addrField src ++
    (if ump_type w0 = SND_UMP_MSG_TYPE_MIDI1_CHANNEL_VOICE then
      dump_ump_midi1_event w0
    else if ump_type w0 = SND_UMP_MSG_TYPE_MIDI2_CHANNEL_VOICE then
      dump_ump_midi2_event w0 w1
    else
      "UMP event: type = " ++ decimal (ump_type w0) ++
        ", group = " ++ decimal (ump_group w0) ++
        ", status = " ++ decimal (ump_status w0) ++
        ", 0x" ++ zeroPad 8 (hexLower w0) ++ "\n")

/-! The drain loop of `main` (the nonblocking event multiplexer).  One
result of the pull operation (snd_seq_event_input) is a return code and,
on success, an event; the inner loop pulls until the code is negative
(would-block or hard error alike: the C test is `if (err < 0) break`),
dumping each delivered event, and then the outer loop flushes once and
either terminates (when the cancellation flag was observed) or waits for
readiness again. -/

/-- EAGAIN, the errno reported by the nonblocking pull when no event is
pending; the would-block return code of snd_seq_event_input is -EAGAIN. -/
abbrev EAGAIN : Int := 11

/-- One result of the pull operation: the return code and the delivered
event, generic in the event representation so that the same loop serves
the legacy and the UMP input paths. -/
structure PullRet (α : Type) where
  err : Int
  ev : Option α

/-- States of the outer loop: blocked in poll, or exited. -/
inductive LoopState where
  | Waiting
  | Terminated
deriving DecidableEq

/-- Observable output actions of one drain cycle. -/
inductive OutAction where
  | line (s : String)
  | flush
deriving DecidableEq

/-- The inner pull-and-dispatch loop of `main`: pull, break on a negative
return code, otherwise dump the event (when one was delivered) and pull
again.  Returns the emitted lines in emission order. -/
def drainLines (dump : α → String) : List (PullRet α) → List String
  | [] => []
  | ⟨err, some e⟩ :: rest =>
    if err < 0 then [] else dump e :: drainLines dump rest
  | ⟨err, none⟩ :: rest =>
    if err < 0 then [] else drainLines dump rest

/-- One iteration of the outer loop of `main` after poll reports
readiness: run the inner loop over the pending pull results, then flush
once, then either terminate (cancellation flag set) or return to waiting. -/
def loopStep (dump : α → String) (stop : Bool) (pulls : List (PullRet α)) :
    List OutAction × LoopState :=
  ((drainLines dump pulls).map OutAction.line ++ [OutAction.flush],
   if stop then LoopState.Terminated else LoopState.Waiting)

/-! Concrete events used to instantiate the theorems below. -/

/-- A legacy note-on event, channel 0, note 60, velocity 100, from source
port 20:1. -/
def ev_noteon_100 : snd_seq_event_t :=
  ⟨SND_SEQ_EVENT_NOTEON, ⟨20, 1⟩,
   ⟨⟨0, 60, 100⟩, ⟨0, 0, 0⟩, ⟨0⟩, ⟨0, 0⟩, ⟨⟨0, 0⟩, ⟨0, 0⟩⟩, []⟩⟩

/-- The same note-on event with velocity 0. -/
def ev_noteon_0 : snd_seq_event_t :=
  ⟨SND_SEQ_EVENT_NOTEON, ⟨20, 1⟩,
   ⟨⟨0, 60, 0⟩, ⟨0, 0, 0⟩, ⟨0⟩, ⟨0, 0⟩, ⟨⟨0, 0⟩, ⟨0, 0⟩⟩, []⟩⟩

/-- An event whose type tag 200 is not in the known set. -/
def ev_unknown_200 : snd_seq_event_t :=
  ⟨200, ⟨128, 0⟩,
   ⟨⟨0, 0, 0⟩, ⟨0, 0, 0⟩, ⟨0⟩, ⟨0, 0⟩, ⟨⟨0, 0⟩, ⟨0, 0⟩⟩, []⟩⟩

/-- A system-exclusive event with a three-byte payload F0 07 F7. -/
def ev_sysex_3 : snd_seq_event_t :=
  ⟨SND_SEQ_EVENT_SYSEX, ⟨20, 1⟩,
   ⟨⟨0, 0, 0⟩, ⟨0, 0, 0⟩, ⟨0⟩, ⟨0, 0⟩, ⟨⟨0, 0⟩, ⟨0, 0⟩⟩, [240, 7, 247]⟩⟩

/-! Helper lemmas about the character content of the string builders, used
to prove that a field label is absent from a rendered line. -/

theorem data_append (s t : String) : (s ++ t).data = s.data ++ t.data := rfl

theorem digitChar10_mem (n : Nat) :
    digitChar10 n ∈ ['0', '1', '2', '3', '4', '5', '6', '7', '8', '9'] := by
  unfold digitChar10
  split_ifs <;> decide

theorem digitsRevAux_chars (fuel : Nat) :
    ∀ m, ∀ c ∈ digitsRevAux fuel m,
      c ∈ ['0', '1', '2', '3', '4', '5', '6', '7', '8', '9'] := by
  induction fuel with
  | zero => intro m c hc; cases m <;> simp [digitsRevAux] at hc
  | succ fuel ih =>
    intro m c hc
    cases m with
    | zero => simp [digitsRevAux] at hc
    | succ m =>
      simp only [digitsRevAux, List.mem_cons] at hc
      rcases hc with h | h
      · exact h ▸ digitChar10_mem _
      · exact ih _ c h

theorem decimal_chars (n : Nat) :
    ∀ c ∈ (decimal n).data, c ∈ ['0', '1', '2', '3', '4', '5', '6', '7', '8', '9'] := by
  intro c hc
  unfold decimal at hc
  by_cases h : n = 0
  · rw [if_pos h] at hc
    rw [show ("0" : String).data = ['0'] from rfl, List.mem_singleton] at hc
    subst hc; decide
  · rw [if_neg h] at hc
    rw [show (⟨(digitsRevAux n n).reverse⟩ : String).data = (digitsRevAux n n).reverse from rfl,
       List.mem_reverse] at hc
    exact digitsRevAux_chars n n c hc

theorem subset_append {s t : String} {allowed : List Char}
    (hs : ∀ x ∈ s.data, x ∈ allowed) (ht : ∀ x ∈ t.data, x ∈ allowed) :
    ∀ x ∈ (s ++ t).data, x ∈ allowed := by
  intro x hx
  rw [data_append, List.mem_append] at hx
  rcases hx with h | h
  · exact hs x h
  · exact ht x h

theorem subset_decimal {n : Nat} {allowed : List Char}
    (hd : ∀ y ∈ ['0', '1', '2', '3', '4', '5', '6', '7', '8', '9'], y ∈ allowed) :
    ∀ x ∈ (decimal n).data, x ∈ allowed :=
  fun x hx => hd x (decimal_chars n x hx)

theorem subset_spacePad {w : Nat} {s : String} {allowed : List Char}
    (hs : ∀ x ∈ s.data, x ∈ allowed) (hsp : ' ' ∈ allowed) :
    ∀ x ∈ (spacePad w s).data, x ∈ allowed := by
  intro x hx
  rw [show (spacePad w s).data = List.replicate (w - s.data.length) ' ' ++ s.data from rfl,
     List.mem_append] at hx
  rcases hx with h | h
  · rw [List.mem_replicate] at h
    exact h.2 ▸ hsp
  · exact hs x h

theorem subset_rightPad {w : Nat} {s : String} {allowed : List Char}
    (hs : ∀ x ∈ s.data, x ∈ allowed) (hsp : ' ' ∈ allowed) :
    ∀ x ∈ (rightPad w s).data, x ∈ allowed := by
  intro x hx
  rw [show (rightPad w s).data = s.data ++ List.replicate (w - s.data.length) ' ' from rfl,
     List.mem_append] at hx
  rcases hx with h | h
  · exact hs x h
  · rw [List.mem_replicate] at h
    exact h.2 ▸ hsp

theorem subset_addrField {a : snd_seq_addr_t} {allowed : List Char}
    (hd : ∀ y ∈ ['0', '1', '2', '3', '4', '5', '6', '7', '8', '9'], y ∈ allowed)
    (hcolon : ':' ∈ allowed) (hsp : ' ' ∈ allowed) :
    ∀ x ∈ (addrField a).data, x ∈ allowed := by
  unfold addrField
  refine subset_append (subset_append (subset_append
    (subset_spacePad (subset_decimal hd) hsp) ?_)
    (subset_rightPad (subset_decimal hd) hsp)) ?_
  · intro x hx
    rw [show (":" : String).data = [':'] from rfl, List.mem_singleton] at hx
    exact hx ▸ hcolon
  · intro x hx
    rw [show (" " : String).data = [' '] from rfl, List.mem_singleton] at hx
    exact hx ▸ hsp

theorem no_char_of_subset (allowed : List Char) {s : String} {c : Char}
    (hsub : ∀ x ∈ s.data, x ∈ allowed) (hc : c ∉ allowed) :
    ∀ x ∈ s.data, x ≠ c :=
  fun x hx he => hc (he ▸ hsub x hx)

theorem not_infix_of_no_char {pat : String} {l : List Char} (c : Char)
    (hc : c ∈ pat.data) (h : ∀ x ∈ l, x ≠ c) : ¬ pat.data <:+: l :=
  fun hin => h c (hin.subset hc) rfl

theorem sysex_bytes_data (bs : List (Fin 256)) :
    (sysex_bytes bs).data
      = bs.flatMap fun b => [' ', hexDigitU (b.val / 16), hexDigitU (b.val % 16)] := by
  induction bs with
  | nil => rfl
  | cons b bs ih =>
    simp only [sysex_bytes, data_append, List.flatMap_cons, ih]
    rfl

/-- Claim C3: a legacy note-on event with velocity 0 is rendered as a
"Note off" line carrying the original channel and note number, and no
velocity field appears on the line. -/
theorem claim_C3_noteon_zero_velocity (ev : snd_seq_event_t)
    (ht : ev.type = SND_SEQ_EVENT_NOTEON) (hv : ev.data.note.velocity = 0) :
    dump_event ev =
      addrField ev.source ++
        ("Note off               " ++ spacePad 2 (decimal ev.data.note.channel) ++
          ", note " ++ decimal ev.data.note.note ++ "\n")
    ∧ ¬ ("velocity".data <:+: (dump_event ev).data) := by
  have hline : dump_event ev =
      addrField ev.source ++
        ("Note off               " ++ spacePad 2 (decimal ev.data.note.channel) ++
          ", note " ++ decimal ev.data.note.note ++ "\n") := by
    unfold dump_event dump_event_body
    rw [if_pos ht, if_pos hv]
  refine ⟨hline, ?_⟩
  rw [hline]
  refine not_infix_of_no_char 'v' (by decide) ?_
  refine no_char_of_subset
    [':', ' ', 'N', 'o', 't', 'e', 'f', ',', 'n', '\n',
     '0', '1', '2', '3', '4', '5', '6', '7', '8', '9'] ?_ (by decide)
  exact subset_append (subset_addrField (by decide) (by decide) (by decide))
    (subset_append (subset_append (subset_append (subset_append (by decide)
      (subset_spacePad (subset_decimal (by decide)) (by decide))) (by decide))
      (subset_decimal (by decide))) (by decide))

/-- Witness for C3 at a concrete note-on event with velocity 0. -/
theorem claim_C3_noteon_zero_velocity_witness :
    ev_noteon_0.type = SND_SEQ_EVENT_NOTEON ∧ ev_noteon_0.data.note.velocity = 0 ∧
      (dump_event ev_noteon_0 =
        addrField ev_noteon_0.source ++
          ("Note off               " ++ spacePad 2 (decimal ev_noteon_0.data.note.channel) ++
            ", note " ++ decimal ev_noteon_0.data.note.note ++ "\n")
      ∧ ¬ ("velocity".data <:+: (dump_event ev_noteon_0).data)) :=
  ⟨rfl, rfl, claim_C3_noteon_zero_velocity ev_noteon_0 rfl rfl⟩

/-- Claim C4: an event whose numeric type tag is not in the known set
still decodes to a line, namely "Event type N" with the tag N rendered
verbatim; the legacy decoder is a total function and drops nothing. -/
theorem claim_C4_unknown_type_total (ev : snd_seq_event_t)
    (h : ev.type ∉ legacyKnownTypes) :
    dump_event ev = addrField ev.source ++ ("Event type " ++ decimal ev.type ++ "\n")
    ∧ (decimal ev.type).data <:+: (dump_event ev).data := by
  have hne : ∀ k ∈ legacyKnownTypes, ev.type ≠ k := fun k hk he => h (he ▸ hk)
  have hline : dump_event ev =
      addrField ev.source ++ ("Event type " ++ decimal ev.type ++ "\n") := by
    unfold dump_event dump_event_body
    rw [if_neg (hne SND_SEQ_EVENT_NOTEON (by decide)),
        if_neg (hne SND_SEQ_EVENT_NOTEOFF (by decide)),
        if_neg (hne SND_SEQ_EVENT_KEYPRESS (by decide)),
        if_neg (hne SND_SEQ_EVENT_CONTROLLER (by decide)),
        if_neg (hne SND_SEQ_EVENT_PGMCHANGE (by decide)),
        if_neg (hne SND_SEQ_EVENT_CHANPRESS (by decide)),
        if_neg (hne SND_SEQ_EVENT_PITCHBEND (by decide)),
        if_neg (hne SND_SEQ_EVENT_CONTROL14 (by decide)),
        if_neg (hne SND_SEQ_EVENT_NONREGPARAM (by decide)),
        if_neg (hne SND_SEQ_EVENT_REGPARAM (by decide)),
        if_neg (hne SND_SEQ_EVENT_SONGPOS (by decide)),
        if_neg (hne SND_SEQ_EVENT_SONGSEL (by decide)),
        if_neg (hne SND_SEQ_EVENT_QFRAME (by decide)),
        if_neg (hne SND_SEQ_EVENT_TIMESIGN (by decide)),
        if_neg (hne SND_SEQ_EVENT_KEYSIGN (by decide)),
        if_neg (hne SND_SEQ_EVENT_START (by decide)),
        if_neg (hne SND_SEQ_EVENT_CONTINUE (by decide)),
        if_neg (hne SND_SEQ_EVENT_STOP (by decide)),
        if_neg (hne SND_SEQ_EVENT_SETPOS_TICK (by decide)),
        if_neg (hne SND_SEQ_EVENT_SETPOS_TIME (by decide)),
        if_neg (hne SND_SEQ_EVENT_TEMPO (by decide)),
        if_neg (hne SND_SEQ_EVENT_CLOCK (by decide)),
        if_neg (hne SND_SEQ_EVENT_TICK (by decide)),
        if_neg (hne SND_SEQ_EVENT_QUEUE_SKEW (by decide)),
        if_neg (hne SND_SEQ_EVENT_TUNE_REQUEST (by decide)),
        if_neg (hne SND_SEQ_EVENT_RESET (by decide)),
        if_neg (hne SND_SEQ_EVENT_SENSING (by decide)),
        if_neg (hne SND_SEQ_EVENT_CLIENT_START (by decide)),
        if_neg (hne SND_SEQ_EVENT_CLIENT_EXIT (by decide)),
        if_neg (hne SND_SEQ_EVENT_CLIENT_CHANGE (by decide)),
        if_neg (hne SND_SEQ_EVENT_PORT_START (by decide)),
        if_neg (hne SND_SEQ_EVENT_PORT_EXIT (by decide)),
        if_neg (hne SND_SEQ_EVENT_PORT_CHANGE (by decide)),
        if_neg (hne SND_SEQ_EVENT_PORT_SUBSCRIBED (by decide)),
        if_neg (hne SND_SEQ_EVENT_PORT_UNSUBSCRIBED (by decide)),
        if_neg (hne SND_SEQ_EVENT_SYSEX (by decide))]
  refine ⟨hline, ?_⟩
  rw [hline]
  exact ⟨(addrField ev.source).data ++ "Event type ".data, "\n".data,
    by simp [data_append, List.append_assoc]⟩

/-- Witness for C4 at a concrete event with unknown type tag 200. -/
theorem claim_C4_unknown_type_total_witness :
    ev_unknown_200.type ∉ legacyKnownTypes ∧
      (dump_event ev_unknown_200 =
        addrField ev_unknown_200.source ++
          ("Event type " ++ decimal ev_unknown_200.type ++ "\n")
      ∧ (decimal ev_unknown_200.type).data <:+: (dump_event ev_unknown_200).data) :=
  ⟨by decide, claim_C4_unknown_type_total ev_unknown_200 (by decide)⟩

/-- Claim C6: a system-exclusive event renders its payload as one
space-separated two-digit uppercase hex token per byte, in original order;
a zero-length payload contributes an empty byte list. -/
theorem claim_C6_sysex_tokens (ev : snd_seq_event_t)
    (h : ev.type = SND_SEQ_EVENT_SYSEX) :
    (dump_event ev).data =
      (addrField ev.source).data ++ "System exclusive          ".data ++
        (ev.data.ext.flatMap fun b => [' ', hexDigitU (b.val / 16), hexDigitU (b.val % 16)]) ++
        ['\n'] := by
  have hline : dump_event ev =
      addrField ev.source ++
        ("System exclusive          " ++ sysex_bytes ev.data.ext ++ "\n") := by
    unfold dump_event dump_event_body
    rw [h]
    simp
  rw [hline, data_append, data_append, data_append, sysex_bytes_data]
  simp [List.append_assoc]

/-- Witness for C6 at a concrete system-exclusive event with three
payload bytes. -/
theorem claim_C6_sysex_tokens_witness :
    ev_sysex_3.type = SND_SEQ_EVENT_SYSEX ∧
      (dump_event ev_sysex_3).data =
        (addrField ev_sysex_3.source).data ++ "System exclusive          ".data ++
          (ev_sysex_3.data.ext.flatMap fun b =>
            [' ', hexDigitU (b.val / 16), hexDigitU (b.val % 16)]) ++
          ['\n'] :=
  ⟨rfl, claim_C6_sysex_tokens ev_sysex_3 rfl⟩

/-- Claim C7: the UMP gen-2 program-change line shows the bank-select pair
(both MSB and LSB) exactly when the bank-valid flag (bit 0 of the first
word) is set; when the flag is clear, no bank-select segment appears at
all. -/
theorem claim_C7_bank_valid (w0 w1 : Nat)
    (h : ump_status w0 = SND_UMP_MSG_PROGRAM_CHANGE) :
    (w0 % 2 = 1 →
      dump_ump_midi2_event w0 w1 =
        "Group " ++ spacePad 2 (decimal (ump_group w0)) ++ ", " ++
          ("Program change         " ++ spacePad 2 (decimal (ump_channel w0)) ++
            ", program " ++ decimal (w1 / 2 ^ 24 % 256) ++
            (", Bank select " ++ decimal (w1 / 2 ^ 8 % 256) ++ ":" ++ decimal (w1 % 256))) ++
          "\n")
    ∧ (w0 % 2 = 0 →
      dump_ump_midi2_event w0 w1 =
        "Group " ++ spacePad 2 (decimal (ump_group w0)) ++ ", " ++
          ("Program change         " ++ spacePad 2 (decimal (ump_channel w0)) ++
            ", program " ++ decimal (w1 / 2 ^ 24 % 256)) ++ "\n"
      ∧ ¬ ("Bank select".data <:+: (dump_ump_midi2_event w0 w1).data)) := by
  constructor
  · intro hb
    unfold dump_ump_midi2_event
    rw [h]
    simp [hb]
  · intro hb
    have hline : dump_ump_midi2_event w0 w1 =
        "Group " ++ spacePad 2 (decimal (ump_group w0)) ++ ", " ++
          ("Program change         " ++ spacePad 2 (decimal (ump_channel w0)) ++
            ", program " ++ decimal (w1 / 2 ^ 24 % 256)) ++ "\n" := by
      unfold dump_ump_midi2_event
      rw [h]
      simp [hb]
    refine ⟨hline, ?_⟩
    rw [hline]
    refine not_infix_of_no_char 'B' (by decide) ?_
    refine no_char_of_subset
      ['G', 'r', 'o', 'u', 'p', ' ', ',', 'P', 'a', 'm', 'c', 'h', 'n', 'g', 'e', '\n',
       '0', '1', '2', '3', '4', '5', '6', '7', '8', '9'] ?_ (by decide)
    exact subset_append (subset_append (subset_append (subset_append (by decide)
      (subset_spacePad (subset_decimal (by decide)) (by decide))) (by decide))
      (subset_append (subset_append (subset_append (by decide)
        (subset_spacePad (subset_decimal (by decide)) (by decide))) (by decide))
        (subset_decimal (by decide)))) (by decide)

/-- Witness for C7 at a concrete gen-2 program-change packet with the
bank-valid flag set (program 5, bank 17:34). -/
theorem claim_C7_bank_valid_witness :
    ump_status 0x40C20001 = SND_UMP_MSG_PROGRAM_CHANGE ∧
      ((0x40C20001 : Nat) % 2 = 1 →
        dump_ump_midi2_event 0x40C20001 0x05001122 =
          "Group " ++ spacePad 2 (decimal (ump_group 0x40C20001)) ++ ", " ++
            ("Program change         " ++ spacePad 2 (decimal (ump_channel 0x40C20001)) ++
              ", program " ++ decimal (0x05001122 / 2 ^ 24 % 256) ++
              (", Bank select " ++ decimal (0x05001122 / 2 ^ 8 % 256) ++ ":" ++
                decimal (0x05001122 % 256))) ++ "\n")
    ∧ ((0x40C20001 : Nat) % 2 = 0 →
        dump_ump_midi2_event 0x40C20001 0x05001122 =
          "Group " ++ spacePad 2 (decimal (ump_group 0x40C20001)) ++ ", " ++
            ("Program change         " ++ spacePad 2 (decimal (ump_channel 0x40C20001)) ++
              ", program " ++ decimal (0x05001122 / 2 ^ 24 % 256)) ++ "\n"
        ∧ ¬ ("Bank select".data <:+: (dump_ump_midi2_event 0x40C20001 0x05001122).data)) :=
  ⟨by decide, (claim_C7_bank_valid 0x40C20001 0x05001122 (by decide)).1,
   (claim_C7_bank_valid 0x40C20001 0x05001122 (by decide)).2⟩

/-- Claim C10: a UMP gen-1 note-on with velocity byte 0 keeps the
"Note on" label and shows velocity value 0; the velocity-zero relabeling
to note-off is not performed by the UMP decoder, so the "Note off" label
cannot appear on the line. -/
theorem claim_C10_ump1_noteon_zero (w0 : Nat)
    (h : ump_status w0 = SND_UMP_MSG_NOTE_ON) (hv : ump_byte3 w0 = 0) :
    dump_ump_midi1_event w0 =
      "Group " ++ spacePad 2 (decimal (ump_group w0)) ++ ", " ++
        ("Note on                " ++ spacePad 2 (decimal (ump_channel w0)) ++
          ", note " ++ decimal (ump_byte2 w0) ++ ", velocity 0x" ++ "0") ++ "\n"
    ∧ ¬ ("Note off".data <:+: (dump_ump_midi1_event w0).data) := by
  have hline : dump_ump_midi1_event w0 =
      "Group " ++ spacePad 2 (decimal (ump_group w0)) ++ ", " ++
        ("Note on                " ++ spacePad 2 (decimal (ump_channel w0)) ++
          ", note " ++ decimal (ump_byte2 w0) ++ ", velocity 0x" ++ "0") ++ "\n" := by
    unfold dump_ump_midi1_event
    rw [h]
    simp [hv, hexLower]
  refine ⟨hline, ?_⟩
  rw [hline]
  refine not_infix_of_no_char 'f' (by decide) ?_
  refine no_char_of_subset
    ['G', 'r', 'o', 'u', 'p', ' ', ',', 'N', 't', 'e', 'n', 'v', 'l', 'c', 'i', 'y',
     'x', '\n', '0', '1', '2', '3', '4', '5', '6', '7', '8', '9'] ?_ (by decide)
  exact subset_append (subset_append (subset_append (subset_append (by decide)
    (subset_spacePad (subset_decimal (by decide)) (by decide))) (by decide))
    (subset_append (subset_append (subset_append (subset_append (subset_append (by decide)
      (subset_spacePad (subset_decimal (by decide)) (by decide))) (by decide))
      (subset_decimal (by decide))) (by decide)) (by decide))) (by decide)

/-- Witness for C10 at a concrete gen-1 note-on packet, channel 1,
note 15, velocity 0. -/
theorem claim_C10_ump1_noteon_zero_witness :
    ump_status 0x20910F00 = SND_UMP_MSG_NOTE_ON ∧ ump_byte3 0x20910F00 = 0 ∧
      (dump_ump_midi1_event 0x20910F00 =
        "Group " ++ spacePad 2 (decimal (ump_group 0x20910F00)) ++ ", " ++
          ("Note on                " ++ spacePad 2 (decimal (ump_channel 0x20910F00)) ++
            ", note " ++ decimal (ump_byte2 0x20910F00) ++ ", velocity 0x" ++ "0") ++ "\n"
      ∧ ¬ ("Note off".data <:+: (dump_ump_midi1_event 0x20910F00).data)) :=
  ⟨by decide, by decide, claim_C10_ump1_noteon_zero 0x20910F00 (by decide) (by decide)⟩

/-- Claim C5 evaluated at its failing input: for a gen-2 packet with the
unrecognized status 7 on channel 3, the fallback line shows the status
value after the "channel = " label (the C call passes status twice), so
the channel value 3 does not appear; the gen-1 fallback, in contrast,
does print the channel. -/
theorem claim_C5_midi2_fallback_eval :
    dump_ump_midi2_event 0x40730000 0
      = "Group  0, UMP MIDI2 event: status = 7, channel = 7, 0x40730000\n"
    ∧ ump_channel 0x40730000 = 3
    ∧ dump_ump_midi1_event 0x20530000
      = "Group  0, UMP MIDI1 event: status = 5, channel = 3, 0x20530000\n" :=
  ⟨by decide, by decide, by decide⟩

/-- Claim C8 evaluated at its failing input: the gen-1 program-change case
falls through (missing break) into the channel-pressure case, so the line
for a program-change packet (channel 1, program 5) also carries a
"Channel pressure" segment. -/
theorem claim_C8_midi1_program_change_eval :
    dump_ump_midi1_event 0x20C10500
      = "Group  0, Program change          1, program 5Channel pressure        1, value 0x5\n"
    ∧ ("Channel pressure".data <:+: (dump_ump_midi1_event 0x20C10500).data) :=
  ⟨by decide, by decide⟩

/-- Claim C9 evaluated at its failing input: the gen-2 channel pitch-bend
case prints the "Channel pressure" label and the channel-pressure field,
rendering identically to an actual channel-pressure message on the same
channel with the same second word. -/
theorem claim_C9_midi2_pitchbend_eval :
    ump_status 0x40E20000 = SND_UMP_MSG_PITCHBEND
    ∧ ump_status 0x40D20000 = SND_UMP_MSG_CHANNEL_PRESSURE
    ∧ dump_ump_midi2_event 0x40E20000 0x12345678
      = "Group  0, Channel pressure        2, value 0x12345678\n"
    ∧ dump_ump_midi2_event 0x40E20000 0x12345678
      = dump_ump_midi2_event 0x40D20000 0x12345678 :=
  ⟨by decide, by decide, by decide, by decide⟩

/-- The inner loop consumes the delivered units (non-negative pull return
codes) in order and stops at the first negative return code, which it
consumes without emitting anything. -/
theorem drainLines_deliveries (e : Int) (he : e < 0)
    (rest : List (PullRet snd_seq_event_t)) :
    ∀ units : List (Int × snd_seq_event_t), (∀ p ∈ units, 0 ≤ p.1) →
      drainLines dump_event
          (units.map (fun p => PullRet.mk p.1 (some p.2)) ++ PullRet.mk e none :: rest)
        = units.map fun p => dump_event p.2 := by
  intro units
  induction units with
  | nil =>
    intro _
    simp only [List.map_nil, List.nil_append, drainLines]
    rw [if_pos he]
  | cons p ps ih =>
    intro h
    simp only [List.map_cons, List.cons_append, drainLines]
    rw [if_neg (not_lt.mpr (h p (List.mem_cons_self p ps)))]
    exact congrArg (List.cons (dump_event p.2))
      (ih fun q hq => h q (List.mem_cons_of_mem p hq))

/-- Claim C1: when N units are delivered (non-negative pull return codes)
before the pull reports would-block (-EAGAIN), the drain cycle emits
exactly the N formatted lines in delivery order, performs exactly one
flush after the last line, and, cancellation not being requested, returns
to the Waiting state. -/
theorem claim_C1_drain_cycle (units : List (Int × snd_seq_event_t))
    (h : ∀ p ∈ units, 0 ≤ p.1) (rest : List (PullRet snd_seq_event_t)) :
    loopStep dump_event false
        (units.map (fun p => PullRet.mk p.1 (some p.2)) ++ PullRet.mk (-EAGAIN) none :: rest)
      = ((units.map fun p => OutAction.line (dump_event p.2)) ++ [OutAction.flush],
         LoopState.Waiting) := by
  unfold loopStep
  rw [drainLines_deliveries (-EAGAIN) (by decide) rest units h]
  simp [List.map_map]

/-- Witness for C1: two delivered events followed by would-block yield the
two lines in order, one flush, and the Waiting state. -/
theorem claim_C1_drain_cycle_witness :
    (∀ p ∈ [((0 : Int), ev_noteon_100), ((1 : Int), ev_unknown_200)], 0 ≤ p.1) ∧
      loopStep dump_event false
          ([((0 : Int), ev_noteon_100), ((1 : Int), ev_unknown_200)].map
            (fun p => PullRet.mk p.1 (some p.2)) ++ PullRet.mk (-EAGAIN) none :: [])
        = (([((0 : Int), ev_noteon_100), ((1 : Int), ev_unknown_200)].map
            fun p => OutAction.line (dump_event p.2)) ++ [OutAction.flush],
           LoopState.Waiting) :=
  ⟨by decide,
   claim_C1_drain_cycle [((0 : Int), ev_noteon_100), ((1 : Int), ev_unknown_200)]
     (by decide) []⟩

/-- Counterexample to claim C2: a pull failing with the hard error -5
(-EIO, not would-block) does not terminate the loop; the cycle flushes
and the engine returns to the Waiting state and keeps polling. -/
theorem claim_C2_counterexample :
    loopStep dump_event false [PullRet.mk (-5) none]
      = ([OutAction.flush], LoopState.Waiting)
    ∧ LoopState.Waiting ≠ LoopState.Terminated :=
  ⟨rfl, by decide⟩

/-- Claim C2 as amended: a negative pull return code, would-block and hard
error alike, only ends the current drain cycle: the lines decoded before
the failure are emitted, one flush is performed, and the loop returns to
Waiting (absent cancellation) instead of terminating. -/
theorem claim_C2_amended_error_not_fatal (units : List (Int × snd_seq_event_t))
    (h : ∀ p ∈ units, 0 ≤ p.1) (e : Int) (he : e < 0)
    (rest : List (PullRet snd_seq_event_t)) :
    loopStep dump_event false
        (units.map (fun p => PullRet.mk p.1 (some p.2)) ++ PullRet.mk e none :: rest)
      = ((units.map fun p => OutAction.line (dump_event p.2)) ++ [OutAction.flush],
         LoopState.Waiting) := by
  unfold loopStep
  rw [drainLines_deliveries e he rest units h]
  simp [List.map_map]

/-- Witness for the amended C2: one delivered event followed by the hard
error -5 yields its line, one flush and the Waiting state. -/
theorem claim_C2_amended_witness :
    (∀ p ∈ [((0 : Int), ev_noteon_100)], 0 ≤ p.1) ∧ (-5 : Int) < 0 ∧
      loopStep dump_event false
          ([((0 : Int), ev_noteon_100)].map (fun p => PullRet.mk p.1 (some p.2)) ++
            PullRet.mk (-5) none :: [])
        = (([((0 : Int), ev_noteon_100)].map fun p => OutAction.line (dump_event p.2)) ++
            [OutAction.flush], LoopState.Waiting) :=
  ⟨by decide, by decide,
   claim_C2_amended_error_not_fatal [((0 : Int), ev_noteon_100)] (by decide) (-5)
     (by decide) []⟩

end Aseqdump
